import Mathlib

/-!
Verification of the w3af CSRF audit plugin (`plugins/audit/csrf.py`).

The Python source is shallowly embedded below.  Pure helpers become Lean
functions; every call into the HTTP layer (the `_uri_opener`) is threaded
through an explicit environment of sender functions, and Python exceptions
(`ValueError` from `math.log(0)`, transport failures raised by the opener)
are represented with `Except`.  The fuzzer (`create_mutants`), the
levenshtein comparator (`relative_distance_boolean`) and the cookie jar are
collaborators whose code is not part of this repository's audited sources;
they are modelled from the specification where noted.
-/

namespace Csrf

/-- Python exceptions that can surface in the plugin: `ValueError` raised by
`math.log`, and transport failures raised by the HTTP opener. -/
inductive PyError
  | valueError (msg : String)
  | transport (msg : String)
deriving DecidableEq, Repr

deriving instance DecidableEq for Except

/-- An HTTP response as the plugin reads it: `get_code()`, `body`, `id`. -/
structure Response where
  code : Nat
  body : String
  id : Nat
deriving DecidableEq, Repr

/-- A FuzzableRequest as the plugin reads it: `get_method()`, `get_url()`
(printable form and its `get_domain()`), `get_referer()`,
`get_uri().has_query_string()`, and `get_dc()` as an ordered mapping from
parameter name to the ordered sequence of its values. -/
structure FuzzableRequest where
  method : String
  url : String
  url_domain : String
  referer : String
  has_query_string : Bool
  dc : List (String × List String)
deriving DecidableEq, Repr

/-- A cookie from the opener's cookie jar; only its `domain` is read. -/
structure Cookie where
  domain : String
deriving DecidableEq, Repr

/-- Severity constants from `core.data.constants.severity`. -/
inductive Severity
  | INFORMATION
  | LOW
  | MEDIUM
  | HIGH
deriving DecidableEq, Repr

/-- `Vuln.from_fr(name, msg, severity, response_id, plugin_name, freq)`. -/
structure Vuln where
  name : String
  desc : String
  severity : Severity
  response_id : Nat
  plugin_name : String
  freq : FuzzableRequest
deriving DecidableEq, Repr

/-- `HeadersMutant`: a copy of the request with one header (`set_var`)
replaced (`set_mod_value`), keeping the original value for reference. -/
structure HeadersMutant where
  freq : FuzzableRequest
  var : String
  original_value : String
  mod_value : String
deriving DecidableEq, Repr

/-- A token mutant produced by the fuzzer: the mutated request plus the
identity of the parameter/value slot that was replaced. -/
structure TokenMutant where
  freq : FuzzableRequest
  token_name : String
  token_index : Nat
deriving DecidableEq, Repr

/-- Observable events of one `audit` run, used to state which probes were
sent and which analysis phases were entered. -/
inductive Event
  | origin_probe (m : HeadersMutant)
  | find_tokens
  | token_probe (m : TokenMutant)
deriving DecidableEq, Repr

/-- `a` is a leading segment of `b` (character lists). -/
def leadMatch : List Char → List Char → Bool
  | [], _ => true
  | _ :: _, [] => false
  | a :: as, b :: bs => a == b && leadMatch as bs

/-- `occursIn needle hay`: `needle` occurs contiguously inside `hay`. -/
def occursIn (needle : List Char) : List Char → Bool
  | [] => leadMatch needle []
  | c :: rest => leadMatch needle (c :: rest) || occursIn needle rest

/-- Python's substring test `a in b` on strings. -/
def pyIn (a b : String) : Bool :=
  occursIn a.data b.data

/-- The module constant `COMMON_CSRF_NAMES`. -/
def COMMON_CSRF_NAMES : List String :=
  ["csrf_token", "token", "csrf"]

/-- One step of the character-scanning loop of `is_csrf_token`: the
`continue`-chained checks `isdigit` / `islower` / `isupper` / `== ' '`
update the four flags `(total_digit, total_lower, total_upper,
total_spaces)`. -/
def charFlags : Bool × Bool × Bool × Bool → Char → Bool × Bool × Bool × Bool
  | (d, l, u, s), i =>
    if i.isDigit then (true, l, u, s)
    else if i.isLower then (d, true, u, s)
    else if i.isUpper then (d, l, true, s)
    else if i == ' ' then (d, l, u, true)
    else (d, l, u, s)

/-- `csrf.is_csrf_token(key, value)`.

The entropy of the source, `floor(log(total) * (len(value) / log(2)))`,
is the integer `Nat.log 2 (total ^ len)` (the largest `k` with
`2 ^ k ≤ total ^ len`), which we use as its exact value.  When
`total == 0` the source evaluates `log(0)`, and Python's `math.log`
raises `ValueError: math domain error`; that raise is embedded as an
`Except.error`. -/
def is_csrf_token (key value : String) : Except PyError Bool :=
  let min_length := 4
  let min_entropy := 36
  -- Check for common CSRF token names (`value` truthiness = non-empty)
  if COMMON_CSRF_NAMES.contains key && !(value == "") then
    Except.ok true
  -- Check length
  else if value.length < min_length then
    Except.ok false
  else
    -- Calculate entropy
    let flags := value.data.foldl charFlags (false, false, false, false)
    let total_digit := flags.1
    let total_lower := flags.2.1
    let total_upper := flags.2.2.1
    let total_spaces := flags.2.2.2
    let total := (if total_digit then 1 else 0) * 10
               + (if total_upper then 1 else 0) * 26
               + (if total_lower then 1 else 0) * 26
    if total == 0 then
      -- math.log(0) raises ValueError in Python
      Except.error (PyError.valueError "math domain error")
    else
      let entropy := Nat.log 2 (total ^ value.length)
      if entropy ≥ min_entropy then
        if !total_spaces && total_digit then Except.ok true
        else Except.ok false
      else Except.ok false

/-- `csrf._is_suitable(freq)` with the opener's cookies passed explicitly.
The `for ... else` cookie loop succeeds when some cookie's `domain` string
contains the request URL's domain as a substring. -/
def _is_suitable (strict_mode : Bool) (cookies : List Cookie)
    (freq : FuzzableRequest) : Bool :=
  if cookies.any (fun cookie => pyIn freq.url_domain cookie.domain) then
    -- Strict mode on/off - do we need to audit GET requests?
    if freq.method == "GET" && strict_mode then false
    -- Payload?
    else if !freq.has_query_string && freq.dc.isEmpty then false
    else true
  else false

/-- Modelled from the spec: the external collaborators of §6 that are not
part of the audited source — the opener's cookie jar (`get_cookies`), the
sender (`send_mutant`, returning a response or a transport failure), and
the levenshtein comparator `relative_distance_boolean(body1, body2, limit)`
which holds exactly when the normalized body similarity reaches the
threshold.  They are abstract functions supplied per analysis. -/
structure Env where
  cookies : List Cookie
  send_headers_mutant : HeadersMutant → Except PyError Response
  send_token_mutant : TokenMutant → Except PyError Response
  relative_distance_boolean : String → String → Rat → Bool

/-- Plugin configuration fixed in `__init__`: `_strict_mode` and
`_equal_limit`. -/
structure Cfg where
  strict_mode : Bool
  equal_limit : Rat

/-- The constructed plugin: `_strict_mode = False`,
`_equal_limit = 0.95`. -/
def default_cfg : Cfg :=
  ⟨false, (95 : Rat) / 100⟩

/-- `csrf._is_resp_equal(res1, res2)`: status codes must agree, then the
bodies must be similar up to `_equal_limit`. -/
def _is_resp_equal (env : Env) (equal_limit : Rat) (res1 res2 : Response) : Bool :=
  if !(res1.code == res2.code) then false
  else if !(env.relative_distance_boolean res1.body res2.body equal_limit) then false
  else true

/-- The fixed foreign referer used by `_is_origin_checked`. -/
def fake_ref : String :=
  "http://www.w3af.org/"

/-- The `HeadersMutant` built in `_is_origin_checked`: a copy of `freq`
with `Referer` replaced by `fake_ref`. -/
def referer_mutant (freq : FuzzableRequest) : HeadersMutant :=
  ⟨freq, "Referer", freq.referer, fake_ref⟩

/-- `csrf._is_origin_checked(freq, orig_response)`: send the referer
mutant; the origin is checked exactly when the probe response is not
equal to the original.  The event list records the probe that was sent. -/
def _is_origin_checked (env : Env) (equal_limit : Rat)
    (freq : FuzzableRequest) (orig_response : Response) :
    List Event × Except PyError Bool :=
  let mutant := referer_mutant freq
  match env.send_headers_mutant mutant with
  | Except.error e => ([Event.origin_probe mutant], Except.error e)
  | Except.ok mutant_response =>
      ([Event.origin_probe mutant],
        Except.ok (!(_is_resp_equal env equal_limit orig_response mutant_response)))

/-- The inner value loop of `_find_csrf_token`: enumerate the values of one
parameter; on the first value the classifier accepts, record its index and
value and `break`.  A classifier fault propagates. -/
def find_token_in_values (param_name : String) :
    Nat → List String → Except PyError (Option (Nat × String))
  | _, [] => Except.ok none
  | i, v :: vs =>
    match is_csrf_token param_name v with
    | Except.error e => Except.error e
    | Except.ok true => Except.ok (some (i, v))
    | Except.ok false => find_token_in_values param_name (i + 1) vs

/-- The parameter loop of `_find_csrf_token` over the ordered data
container. -/
def _find_csrf_token_dc :
    List (String × List String) → Except PyError (List (String × Nat × String))
  | [] => Except.ok []
  | (param_name, vals) :: rest =>
    match find_token_in_values param_name 0 vals with
    | Except.error e => Except.error e
    | Except.ok none => _find_csrf_token_dc rest
    | Except.ok (some (i, v)) =>
      match _find_csrf_token_dc rest with
      | Except.error e => Except.error e
      | Except.ok r => Except.ok ((param_name, i, v) :: r)

/-- `csrf._find_csrf_token(freq)`: the result dictionary flattened to a
list of `(param_name, element_index, element_value)` entries, at most one
per parameter. -/
def _find_csrf_token (freq : FuzzableRequest) :
    Except PyError (List (String × Nat × String)) :=
  _find_csrf_token_dc freq.dc

/-- Replace the value at position `idx` of parameter `name` in the data
container, leaving every other entry untouched. -/
def set_param_value (dc : List (String × List String))
    (name : String) (idx : Nat) (v : String) : List (String × List String) :=
  dc.map (fun p => if p.1 == name then (p.1, p.2.set idx v) else p)

/-- Modelled from the spec: the fuzzer call
`create_mutants(freq, ['123'], False, token.keys())` (the fuzzer module is
not among the audited sources).  Per §4.6 it builds one mutated request per
token-bearing parameter, replacing that parameter's flagged value with the
sentinel and leaving all other parameters and values unchanged. -/
def create_mutants (freq : FuzzableRequest) (sentinel : String)
    (tokens : List (String × Nat × String)) : List TokenMutant :=
  tokens.map (fun t =>
    ⟨⟨freq.method, freq.url, freq.url_domain, freq.referer,
      freq.has_query_string, set_param_value freq.dc t.1 t.2.1 sentinel⟩,
     t.1, t.2.1⟩)

/-- The probe loop of `_is_token_checked`: send each mutant in order and
return `true` on the first response that is not equal to the original;
a transport failure propagates.  The event list records the probes that
were actually sent. -/
def token_probe_loop (env : Env) (equal_limit : Rat) (orig_response : Response) :
    List TokenMutant → List Event × Except PyError Bool
  | [] => ([], Except.ok false)
  | m :: ms =>
    match env.send_token_mutant m with
    | Except.error e => ([Event.token_probe m], Except.error e)
    | Except.ok mutant_response =>
      if !(_is_resp_equal env equal_limit orig_response mutant_response) then
        ([Event.token_probe m], Except.ok true)
      else
        let rest := token_probe_loop env equal_limit orig_response ms
        (Event.token_probe m :: rest.1, rest.2)

/-- `csrf._is_token_checked(freq, token, orig_response)`. -/
def _is_token_checked (env : Env) (equal_limit : Rat) (freq : FuzzableRequest)
    (token : List (String × Nat × String)) (orig_response : Response) :
    List Event × Except PyError Bool :=
  token_probe_loop env equal_limit orig_response (create_mutants freq "123" token)

/-- The vulnerability object built by `audit` when no defense is found:
`Vuln.from_fr('CSRF vulnerability', msg, severity.HIGH, orig_response.id,
'csrf', freq)`. -/
def csrf_vuln (freq : FuzzableRequest) (orig_response : Response) : Vuln :=
  ⟨"CSRF vulnerability",
   "Cross Site Request Forgery has been found at: " ++ freq.url,
   Severity.HIGH, orig_response.id, "csrf", freq⟩

/-- `csrf.audit(freq, orig_response)`.  Returns the trace of probe /
analysis events together with the list of vulnerabilities appended to the
knowledge base (empty on suppression), or the Python exception that
escaped. -/
def audit (cfg : Cfg) (env : Env) (freq : FuzzableRequest)
    (orig_response : Response) : List Event × Except PyError (List Vuln) :=
  if !(_is_suitable cfg.strict_mode env.cookies freq) then ([], Except.ok [])
  else
    -- Referer/Origin check
    match _is_origin_checked env cfg.equal_limit freq orig_response with
    | (ev1, Except.error e) => (ev1, Except.error e)
    | (ev1, Except.ok true) => (ev1, Except.ok [])
    | (ev1, Except.ok false) =>
      -- Does the request have CSRF token in query string or POST payload?
      match _find_csrf_token freq with
      | Except.error e => (ev1 ++ [Event.find_tokens], Except.error e)
      | Except.ok tokens =>
        if !tokens.isEmpty then
          match _is_token_checked env cfg.equal_limit freq tokens orig_response with
          | (ev2, Except.error e) =>
            (ev1 ++ [Event.find_tokens] ++ ev2, Except.error e)
          | (ev2, Except.ok true) =>
            (ev1 ++ [Event.find_tokens] ++ ev2, Except.ok [])
          | (ev2, Except.ok false) =>
            (ev1 ++ [Event.find_tokens] ++ ev2,
             Except.ok [csrf_vuln freq orig_response])
        else
          (ev1 ++ [Event.find_tokens], Except.ok [csrf_vuln freq orig_response])

/-- Whether the classifier accepts `(n, v)` without fault. -/
def accepts_token (n v : String) : Bool :=
  match is_csrf_token n v with
  | Except.ok true => true
  | _ => false

/-- Specification-side locator for one parameter (from the words of §4.5,
for comparison with the source locator): the first classifier-accepted
value with its index, scanning in order. -/
def find_first_accepted (n : String) : Nat → List String → Option (Nat × String)
  | _, [] => none
  | i, v :: vs =>
    if accepts_token n v then some (i, v) else find_first_accepted n (i + 1) vs

/-- Specification-side locator over the whole parameter collection (from
the words of §4.5): record the first accepted `(index, value)` per
parameter, nothing for parameters with no accepted value. -/
def locate_tokens_spec : List (String × List String) → List (String × Nat × String)
  | [] => []
  | (n, vs) :: rest =>
    match find_first_accepted n 0 vs with
    | none => locate_tokens_spec rest
    | some (i, v) => (n, i, v) :: locate_tokens_spec rest

/-- The prefix of a parameter's value list that the locator actually
examines classifies without fault: every value up to and including the
first accepted one yields `Except.ok`.  Values after the first accepted
one are unconstrained (the locator `break`s before reaching them). -/
def scan_ok (n : String) : List String → Bool
  | [] => true
  | v :: vs =>
    match is_csrf_token n v with
    | Except.error _ => false
    | Except.ok true => true
    | Except.ok false => scan_ok n vs

/-- Whether one token probe observably differs from the original response
(`false` also when the probe could not be sent). -/
def probe_differs (env : Env) (equal_limit : Rat) (orig_response : Response)
    (m : TokenMutant) : Bool :=
  match env.send_token_mutant m with
  | Except.error _ => false
  | Except.ok r => !(_is_resp_equal env equal_limit orig_response r)

/-! ### Helper lemmas about the character-scanning loop -/

theorem digit_not_lower {c : Char} (h : c.isDigit = true) : c.isLower = false := by
  simp only [Char.isDigit, Char.isLower, Bool.and_eq_true, decide_eq_true_eq,
    ge_iff_le, UInt32.le_def, BitVec.le_def] at h ⊢
  simp only [Bool.and_eq_false_iff, decide_eq_false_iff_not, not_le, UInt32.lt_def,
    BitVec.lt_def]
  have h48 : ((48 : UInt32)).toBitVec.toNat = 48 := rfl
  have h57 : ((57 : UInt32)).toBitVec.toNat = 57 := rfl
  have h97 : ((97 : UInt32)).toBitVec.toNat = 97 := rfl
  have h122 : ((122 : UInt32)).toBitVec.toNat = 122 := rfl
  rw [h48, h57] at h
  rw [h97, h122]
  omega

theorem digit_not_upper {c : Char} (h : c.isDigit = true) : c.isUpper = false := by
  simp only [Char.isDigit, Char.isUpper, Bool.and_eq_true, decide_eq_true_eq,
    ge_iff_le, UInt32.le_def, BitVec.le_def] at h ⊢
  simp only [Bool.and_eq_false_iff, decide_eq_false_iff_not, not_le, UInt32.lt_def,
    BitVec.lt_def]
  have h48 : ((48 : UInt32)).toBitVec.toNat = 48 := rfl
  have h57 : ((57 : UInt32)).toBitVec.toNat = 57 := rfl
  have h65 : ((65 : UInt32)).toBitVec.toNat = 65 := rfl
  have h90 : ((90 : UInt32)).toBitVec.toNat = 90 := rfl
  rw [h48, h57] at h
  rw [h65, h90]
  omega

theorem digit_not_space {c : Char} (h : c.isDigit = true) : (c == ' ') = false := by
  cases hc : (c == ' ') with
  | false => rfl
  | true =>
    have : c = ' ' := by exact beq_iff_eq.mp hc
    subst this
    exact absurd h (by decide)

/-- The flag-accumulating fold of `is_csrf_token` computes, in each
component, whether some character of the list falls in the corresponding
class — respecting the `continue` chain, so a character only counts for
the first class that matches it. -/
theorem foldl_charFlags_eq (l : List Char) (d lo u s : Bool) :
    l.foldl charFlags (d, lo, u, s) =
      (d || l.any Char.isDigit,
       lo || l.any (fun c => !c.isDigit && c.isLower),
       u || l.any (fun c => !c.isDigit && !c.isLower && c.isUpper),
       s || l.any (fun c => !c.isDigit && !c.isLower && !c.isUpper && (c == ' '))) := by
  induction l generalizing d lo u s with
  | nil => simp
  | cons c cs ih =>
    by_cases hd : c.isDigit = true
    · simp [charFlags, hd, ih]
    · by_cases hl : c.isLower = true
      · simp [charFlags, hd, hl, ih]
      · by_cases hu : c.isUpper = true
        · simp [charFlags, hd, hl, hu, ih]
        · by_cases hs : (c == ' ') = true
          · simp [charFlags, hd, hl, hu, hs, ih]
          · simp [charFlags, hd, hl, hu, hs, ih]

/-! ### C1 -/

/-- C1: the claim says that for a name outside the well-known set and a
value of length at least 4 with no digit and no letter (alphabet estimate
0), `is_csrf_token` must return false normally instead of faulting on a
logarithm of zero.  The code has no such guard: at the concrete input
`("foo", "!!!!")` it evaluates `log(0)`, which raises
`ValueError: math domain error`. -/
theorem c1_zero_alphabet_faults :
    is_csrf_token "foo" "!!!!" =
      Except.error (PyError.valueError "math domain error") := by
  decide

/-! ### C5 -/

/-- C5: for every parameter name in `COMMON_CSRF_NAMES` and every
non-empty value, `is_csrf_token` returns true immediately, regardless of
the value's length, character composition or entropy. -/
theorem c5_name_shortcut (key value : String)
    (hk : key ∈ COMMON_CSRF_NAMES) (hv : value ≠ "") :
    is_csrf_token key value = Except.ok true := by
  have hc : COMMON_CSRF_NAMES.contains key = true := by
    simpa using hk
  have hv' : (value == "") = false := by
    simpa using hv
  have hcond : (COMMON_CSRF_NAMES.contains key && !(value == "")) = true := by
    rw [hc, hv']
    rfl
  simp only [is_csrf_token, hcond, if_true]

/-- Witness for C5 at the concrete input `("csrf_token", "x")`. -/
theorem c5_name_shortcut_witness :
    ("csrf_token" ∈ COMMON_CSRF_NAMES) ∧ ("x" : String) ≠ "" ∧
      is_csrf_token "csrf_token" "x" = Except.ok true :=
  ⟨by decide, by decide, c5_name_shortcut "csrf_token" "x" (by decide) (by decide)⟩

/-! ### C6 -/

/-- C6 counterexample: the claim says the space-exclusion rule holds for
every parameter name, but the name-based shortcut runs first: with the
well-known name `"csrf_token"` the value `"a b1"` contains a space and is
still classified as a token. -/
theorem c6_counterexample :
    (' ' ∈ "a b1".data) ∧ is_csrf_token "csrf_token" "a b1" = Except.ok true := by
  constructor
  · decide
  · decide

/-- C6 (amended): for every parameter name outside the well-known set, a
value containing a space character is never classified as a token —
`is_csrf_token` never returns true on it, regardless of entropy. -/
theorem c6_space_never_token (key value : String)
    (hk : COMMON_CSRF_NAMES.contains key = false) (hs : ' ' ∈ value.data) :
    is_csrf_token key value ≠ Except.ok true := by
  have hsp : value.data.any
      (fun c => !c.isDigit && !c.isLower && !c.isUpper && (c == ' ')) = true :=
    List.any_eq_true.mpr ⟨' ', hs, by decide⟩
  intro h
  simp only [is_csrf_token, hk, Bool.false_and, Bool.false_eq_true, if_false,
    foldl_charFlags_eq, Bool.false_or] at h
  rw [hsp] at h
  simp only [Bool.not_true, Bool.false_and] at h
  repeat split at h
  all_goals try simp_all
  all_goals (split at h <;> simp_all)

/-- Witness for the amended C6 at the concrete input
`("foo", "Token 12345 ABCDE")`. -/
theorem c6_space_never_token_witness :
    (COMMON_CSRF_NAMES.contains "foo" = false) ∧
      (' ' ∈ "Token 12345 ABCDE".data) ∧
      is_csrf_token "foo" "Token 12345 ABCDE" ≠ Except.ok true :=
  ⟨by decide, by decide,
   c6_space_never_token "foo" "Token 12345 ABCDE" (by decide) (by decide)⟩

/-! ### C10 -/

/-- C10: for every parameter name outside the well-known set and every
value made only of digit characters with length at least 11,
`is_csrf_token` returns true: the alphabet estimate is 10, the entropy
`floor(len * log2 10)` is at least 36 (because `10 ^ len ≥ 10 ^ 11 >
2 ^ 36`), the value contains a digit and no space. -/
theorem c10_all_digits_token (key value : String)
    (hk : COMMON_CSRF_NAMES.contains key = false)
    (hd : ∀ c ∈ value.data, c.isDigit = true)
    (hlen : 11 ≤ value.length) :
    is_csrf_token key value = Except.ok true := by
  have hlen' : value.data.length = value.length := rfl
  have hne : value.data ≠ [] := by
    intro h0
    rw [← hlen', h0] at hlen
    simp at hlen
  obtain ⟨c0, hc0⟩ := List.exists_mem_of_ne_nil value.data hne
  have hdig : value.data.any Char.isDigit = true :=
    List.any_eq_true.mpr ⟨c0, hc0, hd c0 hc0⟩
  have hlow : value.data.any (fun c => !c.isDigit && c.isLower) = false :=
    List.any_eq_false.mpr (fun c hc => by simp [hd c hc])
  have hupp : value.data.any (fun c => !c.isDigit && !c.isLower && c.isUpper) = false :=
    List.any_eq_false.mpr (fun c hc => by simp [hd c hc])
  have hspc : value.data.any
      (fun c => !c.isDigit && !c.isLower && !c.isUpper && (c == ' ')) = false :=
    List.any_eq_false.mpr (fun c hc => by simp [hd c hc])
  have h4 : ¬(value.length < 4) := by omega
  have hent : 36 ≤ Nat.log 2 (10 ^ value.length) := by
    apply Nat.le_log_of_pow_le (by norm_num)
    calc (2 : Nat) ^ 36 ≤ 10 ^ 11 := by norm_num
    _ ≤ 10 ^ value.length := Nat.pow_le_pow_right (by norm_num) hlen
  simp only [is_csrf_token, hk, Bool.false_and, Bool.false_eq_true, if_false,
    foldl_charFlags_eq, Bool.false_or, hdig, hlow, hupp, hspc, h4]
  norm_num [hent]

/-- Witness for C10 at the concrete input `("foo", "12345678901")`. -/
theorem c10_all_digits_token_witness :
    (COMMON_CSRF_NAMES.contains "foo" = false) ∧
      (∀ c ∈ ("12345678901" : String).data, c.isDigit = true) ∧
      (11 ≤ ("12345678901" : String).length) ∧
      is_csrf_token "foo" "12345678901" = Except.ok true :=
  ⟨by decide, by decide, by decide,
   c10_all_digits_token "foo" "12345678901" (by decide) (by decide) (by decide)⟩

/-! ### C2 -/

/-- The request used for the C2 claim: a POST to `example.com` carrying a
query string. -/
def c2_freq : FuzzableRequest :=
  ⟨"POST", "http://example.com/?x=1", "example.com", "", true, [("x", ["1"])]⟩

/-- C2 counterexample: with the single cookie domain `"www.example.com"`,
no cookie's domain occurs as a substring (hence not as a suffix either) of
the URL's domain `"example.com"`, yet `_is_suitable` returns true — the
source tests the reverse direction (URL domain inside cookie domain). -/
theorem c2_counterexample :
    (∀ c ∈ [Cookie.mk "www.example.com"], pyIn c.domain c2_freq.url_domain = false) ∧
      _is_suitable false [Cookie.mk "www.example.com"] c2_freq = true := by
  constructor
  · decide
  · decide

/-- C2 (amended): the filter tests the reverse containment — it accepts
only if the request URL's domain occurs as a substring of some cookie's
domain; whenever the URL's domain is a substring of no cookie's domain,
`_is_suitable` returns false. -/
theorem c2_no_cookie_match_unsuitable (strict : Bool) (cookies : List Cookie)
    (freq : FuzzableRequest)
    (h : ∀ c ∈ cookies, pyIn freq.url_domain c.domain = false) :
    _is_suitable strict cookies freq = false := by
  have hany : cookies.any (fun cookie => pyIn freq.url_domain cookie.domain) = false :=
    List.any_eq_false.mpr (fun c hc => by simp [h c hc])
  simp [_is_suitable, hany]

/-- Witness for the amended C2: a cookie jar whose only domain does not
contain the URL's domain. -/
theorem c2_no_cookie_match_unsuitable_witness :
    (∀ c ∈ [Cookie.mk "other.org"], pyIn c2_freq.url_domain c.domain = false) ∧
      _is_suitable false [Cookie.mk "other.org"] c2_freq = false :=
  ⟨by decide,
   c2_no_cookie_match_unsuitable false [Cookie.mk "other.org"] c2_freq (by decide)⟩

/-! ### C7 -/

theorem find_token_in_values_eq_spec (n : String) (vs : List String) (i : Nat)
    (h : scan_ok n vs = true) :
    find_token_in_values n i vs = Except.ok (find_first_accepted n i vs) := by
  induction vs generalizing i with
  | nil => rfl
  | cons v vs ih =>
    cases hE : is_csrf_token n v with
    | error e => simp [scan_ok, hE] at h
    | ok b =>
      cases b with
      | true =>
        simp [find_token_in_values, find_first_accepted, accepts_token, hE]
      | false =>
        simp only [scan_ok, hE] at h
        simp [find_token_in_values, find_first_accepted, accepts_token, hE, ih i.succ h]

theorem find_csrf_token_dc_eq_spec (dc : List (String × List String))
    (h : ∀ p ∈ dc, scan_ok p.1 p.2 = true) :
    _find_csrf_token_dc dc = Except.ok (locate_tokens_spec dc) := by
  induction dc with
  | nil => rfl
  | cons p rest ih =>
    obtain ⟨n, vs⟩ := p
    have h1 : scan_ok n vs = true := h (n, vs) (by simp)
    have hr := ih (fun q hq => h q (by simp [hq]))
    cases hfa : find_first_accepted n 0 vs with
    | none =>
      simp [_find_csrf_token_dc, locate_tokens_spec,
        find_token_in_values_eq_spec n vs 0 h1, hfa, hr]
    | some iv =>
      obtain ⟨i, v⟩ := iv
      simp [_find_csrf_token_dc, locate_tokens_spec,
        find_token_in_values_eq_spec n vs 0 h1, hfa, hr]

theorem locate_tokens_spec_nil (dc : List (String × List String))
    (h : ∀ p ∈ dc, find_first_accepted p.1 0 p.2 = none) :
    locate_tokens_spec dc = [] := by
  induction dc with
  | nil => rfl
  | cons p rest ih =>
    obtain ⟨n, vs⟩ := p
    simp [locate_tokens_spec, h (n, vs) (by simp),
      ih (fun q hq => h q (by simp [hq]))]

/-- C7: as long as every value the locator actually examines classifies
without fault, `_find_csrf_token` scans each parameter's values in order,
records only the first classifier-accepted `(index, value)` pair per
parameter and scans no further values of that parameter (the `scan_ok`
hypothesis constrains only the prefix up to the first accepted value, so
later values may even be fault-inducing), and it returns the empty map
when no parameter has an accepted value. -/
theorem c7_locator (freq : FuzzableRequest)
    (h : ∀ p ∈ freq.dc, scan_ok p.1 p.2 = true) :
    _find_csrf_token freq = Except.ok (locate_tokens_spec freq.dc) ∧
      ((∀ p ∈ freq.dc, find_first_accepted p.1 0 p.2 = none) →
        _find_csrf_token freq = Except.ok []) := by
  constructor
  · exact find_csrf_token_dc_eq_spec freq.dc h
  · intro h2
    have := find_csrf_token_dc_eq_spec freq.dc h
    rw [locate_tokens_spec_nil freq.dc h2] at this
    exact this

/-- The request used in the C7 witness: the second value of `token` is
accepted by the name shortcut, and the third value `"####"` — which would
make the classifier fault — is never scanned. -/
def c7_freq : FuzzableRequest :=
  ⟨"POST", "http://example.com/", "example.com", "", false,
   [("token", ["", "x", "####"]), ("b", ["xy"])]⟩

/-- Witness for C7 at a concrete request. -/
theorem c7_locator_witness :
    (∀ p ∈ c7_freq.dc, scan_ok p.1 p.2 = true) ∧
      _find_csrf_token c7_freq = Except.ok (locate_tokens_spec c7_freq.dc) ∧
      locate_tokens_spec c7_freq.dc = [("token", 1, "x")] :=
  ⟨by decide, (c7_locator c7_freq (by decide)).1, by decide⟩

/-! ### C8 -/

theorem token_probe_loop_eq_any (env : Env) (lim : Rat) (orig : Response)
    (ms : List TokenMutant)
    (h : ∀ m ∈ ms, ∃ r, env.send_token_mutant m = Except.ok r) :
    (token_probe_loop env lim orig ms).2 =
      Except.ok (ms.any (probe_differs env lim orig)) := by
  induction ms with
  | nil => rfl
  | cons m ms ih =>
    obtain ⟨r, hr⟩ := h m (by simp)
    have hrest := ih (fun q hq => h q (by simp [hq]))
    by_cases hdf : _is_resp_equal env lim orig r = true
    · simp [token_probe_loop, hr, hdf, probe_differs, hrest]
    · simp only [Bool.not_eq_true] at hdf
      simp [token_probe_loop, hr, hdf, probe_differs]

/-- C8: provided every token probe can be sent, `_is_token_checked`
builds (via the spec-modelled fuzzer) one mutated request per
token-bearing parameter — replacing that parameter's flagged value with
the sentinel `"123"` and leaving all other parameters unchanged — and
returns true exactly when at least one mutation's response differs from
the original under the comparator; if every mutation's response equals
the original it returns false. -/
theorem c8_token_validator (env : Env) (equal_limit : Rat)
    (freq : FuzzableRequest) (tokens : List (String × Nat × String))
    (orig : Response)
    (h : ∀ m ∈ create_mutants freq "123" tokens,
      ∃ r, env.send_token_mutant m = Except.ok r) :
    (_is_token_checked env equal_limit freq tokens orig).2 =
      Except.ok ((create_mutants freq "123" tokens).any
        (probe_differs env equal_limit orig)) ∧
      (create_mutants freq "123" tokens).length = tokens.length ∧
      (∀ m ∈ create_mutants freq "123" tokens,
        m.freq.dc = set_param_value freq.dc m.token_name m.token_index "123" ∧
        ∀ p ∈ freq.dc, p.1 ≠ m.token_name → p ∈ m.freq.dc) := by
  refine ⟨token_probe_loop_eq_any env equal_limit orig _ h,
    by simp [create_mutants], ?_⟩
  intro m hm
  simp only [create_mutants, List.mem_map] at hm
  obtain ⟨t, ht, rfl⟩ := hm
  refine ⟨rfl, fun p hp hne => ?_⟩
  have hbeq : (p.1 == t.1) = false := beq_eq_false_iff_ne.mpr hne
  simp only [set_param_value, List.mem_map]
  exact ⟨p, hp, by simp [hbeq]⟩

/-- Concrete data for the C8 witness. -/
def c8_freq : FuzzableRequest :=
  ⟨"POST", "http://example.com/", "example.com", "", false,
   [("token", ["abc"]), ("other", ["v"])]⟩

def c8_orig : Response :=
  ⟨200, "orig body", 1⟩

def c8_env : Env :=
  ⟨[⟨"example.com"⟩],
   fun _ => Except.ok ⟨200, "orig body", 2⟩,
   fun _ => Except.ok ⟨403, "denied", 3⟩,
   fun _ _ _ => true⟩

/-- Witness for C8: one token-bearing parameter whose probe draws a 403,
so the validator reports the token as checked. -/
theorem c8_token_validator_witness :
    (_is_token_checked c8_env ((95 : Rat) / 100) c8_freq
        [("token", 0, "abc")] c8_orig).2 =
      Except.ok ((create_mutants c8_freq "123" [("token", 0, "abc")]).any
        (probe_differs c8_env ((95 : Rat) / 100) c8_orig)) :=
  (c8_token_validator c8_env ((95 : Rat) / 100) c8_freq [("token", 0, "abc")]
    c8_orig (fun _ _ => ⟨⟨403, "denied", 3⟩, rfl⟩)).1

/-! ### C3, C4, C9: the orchestrator -/

theorem origin_checked_of_sent (env : Env) (lim : Rat) (freq : FuzzableRequest)
    (orig r : Response)
    (hsend : env.send_headers_mutant (referer_mutant freq) = Except.ok r) :
    _is_origin_checked env lim freq orig =
      ([Event.origin_probe (referer_mutant freq)],
        Except.ok (!(_is_resp_equal env lim orig r))) := by
  simp [_is_origin_checked, hsend]

theorem token_probe_loop_all_equal (env : Env) (lim : Rat) (orig : Response)
    (ms : List TokenMutant)
    (h : ∀ m ∈ ms, ∃ r, env.send_token_mutant m = Except.ok r ∧
      _is_resp_equal env lim orig r = true) :
    token_probe_loop env lim orig ms = (ms.map Event.token_probe, Except.ok false) := by
  induction ms with
  | nil => rfl
  | cons m ms ih =>
    obtain ⟨r, hr, heq⟩ := h m (by simp)
    simp [token_probe_loop, hr, heq, ih (fun q hq => h q (by simp [hq]))]

/-- C3: for every request that passes the suitability filter, whose
referer-mutated probe response equals the original under the comparator,
and for which the locator finds either no token candidates or only
candidates whose token-mutation probes all equal the original, `audit`
emits exactly one finding — with HIGH severity and referencing the
original request and the original response's id. -/
theorem c3_emits_finding (cfg : Cfg) (env : Env) (freq : FuzzableRequest)
    (orig r : Response) (tokens : List (String × Nat × String))
    (hsuit : _is_suitable cfg.strict_mode env.cookies freq = true)
    (hsend : env.send_headers_mutant (referer_mutant freq) = Except.ok r)
    (heq : _is_resp_equal env cfg.equal_limit orig r = true)
    (htok : _find_csrf_token freq = Except.ok tokens)
    (hvld : tokens = [] ∨ ∀ m ∈ create_mutants freq "123" tokens,
      ∃ rm, env.send_token_mutant m = Except.ok rm ∧
        _is_resp_equal env cfg.equal_limit orig rm = true) :
    (audit cfg env freq orig).2 = Except.ok [csrf_vuln freq orig] ∧
      (csrf_vuln freq orig).severity = Severity.HIGH ∧
      (csrf_vuln freq orig).response_id = orig.id ∧
      (csrf_vuln freq orig).freq = freq := by
  refine ⟨?_, rfl, rfl, rfl⟩
  have horig := origin_checked_of_sent env cfg.equal_limit freq orig r hsend
  rw [heq] at horig
  cases tokens with
  | nil =>
    simp [audit, hsuit, horig, htok]
  | cons t ts =>
    have hall : ∀ m ∈ create_mutants freq "123" (t :: ts),
        ∃ rm, env.send_token_mutant m = Except.ok rm ∧
          _is_resp_equal env cfg.equal_limit orig rm = true :=
      hvld.resolve_left (by simp)
    have hloop := token_probe_loop_all_equal env cfg.equal_limit orig _ hall
    simp [audit, hsuit, horig, htok, _is_token_checked, hloop]

/-- Concrete data for the C3 witness: cookie domain matches, the referer
probe draws an identical response, the name-matched token `token=x` is
located, and its mutation probe also draws an identical response. -/
def c3_freq : FuzzableRequest :=
  ⟨"POST", "http://example.com/", "example.com", "http://example.com/form",
   false, [("token", ["x"])]⟩

def c3_orig : Response :=
  ⟨200, "welcome", 7⟩

def c3_env : Env :=
  ⟨[⟨"example.com"⟩],
   fun _ => Except.ok ⟨200, "welcome", 8⟩,
   fun _ => Except.ok ⟨200, "welcome", 9⟩,
   fun _ _ _ => true⟩

/-- Witness for C3: the vulnerable end-to-end case emits exactly one HIGH
finding. -/
theorem c3_emits_finding_witness :
    (audit default_cfg c3_env c3_freq c3_orig).2 =
      Except.ok [csrf_vuln c3_freq c3_orig] :=
  (c3_emits_finding default_cfg c3_env c3_freq c3_orig ⟨200, "welcome", 8⟩
    [("token", 0, "x")] (by decide) rfl rfl (by decide)
    (Or.inr (fun m hm => ⟨⟨200, "welcome", 9⟩, rfl, rfl⟩))).1

/-- C4: for every suitable request whose referer-mutated probe response
differs from the original under the comparator, `audit` suppresses —
it emits no finding, and neither the token locator nor the token
validator is ever invoked (the event trace holds only the origin
probe). -/
theorem c4_origin_suppresses (cfg : Cfg) (env : Env) (freq : FuzzableRequest)
    (orig r : Response)
    (hsuit : _is_suitable cfg.strict_mode env.cookies freq = true)
    (hsend : env.send_headers_mutant (referer_mutant freq) = Except.ok r)
    (hneq : _is_resp_equal env cfg.equal_limit orig r = false) :
    audit cfg env freq orig =
        ([Event.origin_probe (referer_mutant freq)], Except.ok []) ∧
      Event.find_tokens ∉ (audit cfg env freq orig).1 ∧
      ∀ m, Event.token_probe m ∉ (audit cfg env freq orig).1 := by
  have horig := origin_checked_of_sent env cfg.equal_limit freq orig r hsend
  rw [hneq] at horig
  have h1 : audit cfg env freq orig =
      ([Event.origin_probe (referer_mutant freq)], Except.ok []) := by
    simp [audit, hsuit, horig]
  refine ⟨h1, ?_, ?_⟩
  · rw [h1]
    simp
  · intro m
    rw [h1]
    simp

/-- Concrete data for the C4 witness: the referer probe draws a 403 while
the original was a 200, so the comparator reports a difference. -/
def c4_freq : FuzzableRequest :=
  ⟨"POST", "http://example.com/", "example.com", "http://example.com/form",
   false, [("token", ["x"])]⟩

def c4_orig : Response :=
  ⟨200, "welcome", 7⟩

def c4_env : Env :=
  ⟨[⟨"example.com"⟩],
   fun _ => Except.ok ⟨403, "forbidden", 8⟩,
   fun _ => Except.ok ⟨200, "welcome", 9⟩,
   fun _ _ _ => true⟩

/-- Witness for C4: the referer-protected end-to-end case suppresses and
sends only the origin probe. -/
theorem c4_origin_suppresses_witness :
    audit default_cfg c4_env c4_freq c4_orig =
      ([Event.origin_probe (referer_mutant c4_freq)], Except.ok []) :=
  (c4_origin_suppresses default_cfg c4_env c4_freq c4_orig
    ⟨403, "forbidden", 8⟩ (by decide) rfl rfl).1

/-- Concrete data for C9: a suitable request whose referer probe raises a
transport failure. -/
def c9_freq : FuzzableRequest :=
  ⟨"POST", "http://example.com/?x=1", "example.com", "", true, [("x", ["1"])]⟩

def c9_orig : Response :=
  ⟨200, "welcome", 7⟩

def c9_env : Env :=
  ⟨[⟨"example.com"⟩],
   fun _ => Except.error (PyError.transport "timeout"),
   fun _ => Except.ok ⟨200, "welcome", 9⟩,
   fun _ _ _ => true⟩

/-- C9: the claim (and §7 of the spec) requires `audit` to treat a probe
whose send raises a transport failure as inconclusive without crashing
the analysis.  The code has no exception handling: at this concrete
input the failure escapes `audit` (the run ends in `Except.error`
after the single origin probe), so no finding is emitted but the
analysis faults instead of completing. -/
theorem c9_transport_failure_propagates :
    (audit default_cfg c9_env c9_freq c9_orig).2 =
        Except.error (PyError.transport "timeout") ∧
      (audit default_cfg c9_env c9_freq c9_orig).1 =
        [Event.origin_probe (referer_mutant c9_freq)] := by
  constructor
  · decide
  · decide
